import Mathlib

/-!
Verification of the babushka advice backend (src/main.py) against its
natural-language specification. The Python source is shallowly embedded:
the weighted draw in the /advice handler (random.choices) is modelled by
the cumulative-weight bisection it performs, the in-memory conversation
dictionary by an association list with the same lookup/insert semantics,
the Clerk JWT verification by an oracle giving the outcome of each
JWKS-URL attempt, and the Anthropic API by an oracle stream of call
outcomes (each a function of the prompt sent). HTTP error responses are
Except values carrying the status code and detail string.
-/

/-- Claim set produced by a successfully decoded JWT: a mapping from claim
names to values, as the Python dict returned by jwt.decode. -/
abbrev Claims := List (String × String)

/-- Python dict get with default None: first value bound to the key, none if
absent. Models the user_info.get calls in main.py. -/
def lookupOpt (m : List (String × String)) (k : String) : Option String :=
  match m with
  | [] => none
  | (a, b) :: rest => if a = k then some b else lookupOpt rest k

/-- Resolution of the Clerk instance URL at startup (main.py lines 41-45):
CLERK_INSTANCE_URL, else the publishable key with its pk_live_ / pk_test_
markers stripped, else the hard default. Python or-chains treat both an
unset variable (none) and the empty string as falsy. -/
def clerk_instance_url (envInstanceUrl : Option String)
    (envPublishableKey : Option String) : String :=
  let first := envInstanceUrl.getD ""
  let second :=
    ((envPublishableKey.getD "").replace "pk_live_" "").replace "pk_test_" ""
  if first = "" then
    (if second = "" then "clerk.askbabushka.ai" else second)
  else first

/-- The three candidate JWKS discovery URLs tried by verify_clerk_token
(main.py lines 76-80). -/
def jwks_urls (instanceUrl : String) : List String :=
  ["https://" ++ instanceUrl ++ "/.well-known/jwks.json",
   "https://clerk." ++ instanceUrl ++ "/.well-known/jwks.json",
   "https://brave-fawn-12.clerk.accounts.dev/.well-known/jwks.json"]

/-- The for-loop of verify_clerk_token: try each JWKS URL in order, return
the first successfully decoded claim set, none when every attempt raised. -/
def firstOk (urls : List String) (try_ : String → Except String Claims) :
    Option Claims :=
  match urls with
  | [] => none
  | u :: rest =>
    match try_ u with
    | Except.ok c => some c
    | Except.error _ => firstOk rest try_

/-- verify_clerk_token (main.py lines 60-122). The attempt oracle models
one iteration of the loop body for a given JWKS URL and token: PyJWKClient
key fetch plus jwt.decode, every raised exception becoming an error value
(network failure, unknown key, bad signature, expired token, malformed
token all land there). The function is total: no input makes it raise. -/
def verify_clerk_token (authorization : Option String)
    (attempt : String → String → Except String Claims)
    (instanceUrl : String) : Option Claims :=
  match authorization with
  | none => none
  | some auth =>
    if auth.startsWith "Bearer " then
      let token := auth.replace "Bearer " ""
      firstOk (jwks_urls instanceUrl) (fun url => attempt url token)
    else none

/-- One record of the conversation log (main.py lines 198-202, 267-271). -/
structure ConversationRecord where
  timestamp : String
  type : String
  content : String
deriving DecidableEq

/-- The user_conversations dictionary: user id to ordered record list. -/
abbrev LogMap := List (String × List ConversationRecord)

/-- user_conversations.get(uid, []): the stored sequence, empty if the user
has no entry. -/
def logRead (log : LogMap) (uid : String) : List ConversationRecord :=
  match log with
  | [] => []
  | (k, v) :: rest => if k = uid then v else logRead rest uid

/-- The append in the /advice handler: create the list for uid when absent,
then push the record at its end (main.py lines 194-202). -/
def logAppend (log : LogMap) (uid : String) (r : ConversationRecord) :
    LogMap :=
  match log with
  | [] => [(uid, [r])]
  | (k, v) :: rest =>
    if k = uid then (k, v ++ [r]) :: rest else (k, v) :: logAppend rest uid r

/-- The fixed philosophy weight table (main.py lines 204-210). -/
def philosophy_weights : List (String × ℚ) :=
  [("christian", 3/10), ("buddhist", 3/10), ("taoist", 1/10),
   ("secular_humanist", 1/10), ("stoic", 2/10)]

/-- Entries of a weight table whose weight is strictly positive: the
candidate pool built on main.py lines 212-213. -/
def positiveEntries (table : List (String × ℚ)) : List (String × ℚ) :=
  table.filter (fun p => decide (0 < p.2))

/-- Running cumulative sums, as _accumulate(weights) inside random.choices. -/
def accumulate (ws : List ℚ) (acc : ℚ) : List ℚ :=
  match ws with
  | [] => []
  | w :: rest => (acc + w) :: accumulate rest (acc + w)

/-- bisect.bisect_right(cum, x, 0, hi): for a sorted list, the insertion
point within the first hi elements, i.e. how many of them are at most x. -/
def bisectRight (cum : List ℚ) (x : ℚ) (hi : Nat) : Nat :=
  ((cum.take hi).filter (fun c => decide (c ≤ x))).length

/-- Index picked by one draw of random.choices: bisect the cumulative
weights with the scaled random value r = random() * total, the upper bound
clamped to len - 1 exactly as in the library source. -/
def choiceIdx (ws : List ℚ) (r : ℚ) : Nat :=
  bisectRight (accumulate ws 0) r (ws.length - 1)

/-- random.choices(population, weights, k): k independent draws with
replacement, the i-th using the i-th value of the random stream rs. -/
def pythonChoices (population : List String) (ws : List ℚ) (k : Nat)
    (rs : List ℚ) : List String :=
  (List.range k).map (fun i => population.getD (choiceIdx ws (rs.getD i 0)) "")

/-- The philosophy selection of the /advice handler (main.py lines
212-219), generalised over the table and the requested count exactly as
the spec contract states it: filter out the zero-weight entries, then draw
min k (pool size) names with replacement. -/
def selectPhilosophies (table : List (String × ℚ)) (k : Nat) (rs : List ℚ) :
    List String :=
  let available := positiveEntries table
  pythonChoices (available.map Prod.fst) (available.map Prod.snd)
    (min k available.length) rs

theorem accumulate_length (ws : List ℚ) (acc : ℚ) :
    (accumulate ws acc).length = ws.length := by
  induction ws generalizing acc with
  | nil => rfl
  | cons w rest ih => simp [accumulate, ih]

theorem bisectRight_le (cum : List ℚ) (x : ℚ) (hi : Nat) :
    bisectRight cum x hi ≤ hi := by
  calc ((cum.take hi).filter (fun c => decide (c ≤ x))).length
      ≤ (cum.take hi).length := List.length_filter_le _ _
    _ ≤ hi := List.length_take_le _ _

theorem getD_mem {α : Type} {l : List α} {i : Nat} (h : i < l.length)
    (d : α) : l.getD i d ∈ l := by
  induction l generalizing i with
  | nil => simp at h
  | cons a rest ih =>
    cases i with
    | zero => simp [List.getD]
    | succ j =>
      have hj : j < rest.length := Nat.lt_of_succ_lt_succ h
      simp only [List.getD, List.getElem?_cons_succ]
      exact List.mem_cons_of_mem a (ih hj)

theorem choiceIdx_lt (ws : List ℚ) (r : ℚ) (h : 0 < ws.length) :
    choiceIdx ws r < ws.length := by
  have h1 : choiceIdx ws r ≤ ws.length - 1 := bisectRight_le _ _ _
  omega

/-- C1: with at least one positive-weight entry in the table, the
philosophy selection has length exactly min k (number of positive-weight
entries), every selected name is the name of a table entry of positive
weight (so no zero-weight entry is ever returned), and the sampling is
with replacement: on the programs own table a random stream exists that
returns the same entry three times. -/
theorem C1_philosophy_select_spec (table : List (String × ℚ)) (k : Nat)
    (rs : List ℚ) (h : ∃ p ∈ table, 0 < p.2) :
    (selectPhilosophies table k rs).length = min k (positiveEntries table).length ∧
    (∀ s ∈ selectPhilosophies table k rs, ∃ w, (s, w) ∈ table ∧ 0 < w) ∧
    selectPhilosophies philosophy_weights 3 [0, 0, 0] =
      ["christian", "christian", "christian"] := by
  refine ⟨?_, ?_, by
    norm_num [selectPhilosophies, positiveEntries, pythonChoices, choiceIdx,
      bisectRight, accumulate, philosophy_weights, List.range_succ]⟩
  · simp [selectPhilosophies, pythonChoices]
  · intro s hs
    obtain ⟨p, hp, hpw⟩ := h
    have hpos : p ∈ positiveEntries table := by
      simp [positiveEntries, List.mem_filter, hp, hpw]
    have hlen : 0 < (positiveEntries table).length :=
      List.length_pos.mpr (fun hnil => by simp [hnil] at hpos)
    simp only [selectPhilosophies, pythonChoices, List.mem_map,
      List.mem_range] at hs
    obtain ⟨i, _, hi⟩ := hs
    have hmlen : ((positiveEntries table).map Prod.snd).length =
        (positiveEntries table).length := List.length_map _ _
    have hidx : choiceIdx ((positiveEntries table).map Prod.snd)
        ((rs.getD i 0)) < ((positiveEntries table).map Prod.fst).length := by
      have := choiceIdx_lt ((positiveEntries table).map Prod.snd)
        (rs.getD i 0) (by rw [hmlen]; exact hlen)
      simpa [List.length_map, hmlen] using this
    have hmem : ((positiveEntries table).map Prod.fst).getD
        (choiceIdx ((positiveEntries table).map Prod.snd) (rs.getD i 0)) "" ∈
        (positiveEntries table).map Prod.fst := getD_mem hidx ""
    subst hi
    obtain ⟨q, hq, hqs⟩ := List.mem_map.mp hmem
    have hq2 : q ∈ table ∧ 0 < q.2 := by
      have := List.mem_filter.mp hq
      exact ⟨this.1, of_decide_eq_true this.2⟩
    refine ⟨q.2, ?_, hq2.2⟩
    rw [← hqs]
    simpa using hq2.1

/-- Closed instance of C1 at a concrete table, count and random stream. -/
theorem C1_philosophy_select_spec_witness :
    (selectPhilosophies [("a", 1), ("b", 0)] 2 [0, 0]).length =
      min 2 (positiveEntries [("a", 1), ("b", 0)]).length ∧
    (∀ s ∈ selectPhilosophies [("a", 1), ("b", 0)] 2 [0, 0],
      ∃ w, (s, w) ∈ [("a", (1 : ℚ)), ("b", 0)] ∧ 0 < w) ∧
    selectPhilosophies philosophy_weights 3 [0, 0, 0] =
      ["christian", "christian", "christian"] :=
  C1_philosophy_select_spec [("a", 1), ("b", 0)] 2 [0, 0]
    ⟨("a", 1), by decide⟩

/-- Request body of POST /advice (main.py lines 124-126); user_id is an
optional field the handler never reads. -/
structure RelationshipSituation where
  situation : String
  user_id : Option String := none

/-- Success body of POST /advice (main.py line 273). -/
structure AdviceResponse where
  advice : String
  user_id : Option String
  authenticated : Bool
deriving DecidableEq

/-- Outcome of one Anthropic API call as the handler consumes it: either a
raised exception message, or the list of text blocks of response.content. -/
abbrev UpstreamResult := Except String (List String)

/-- The fixed guidance text per philosophy (main.py lines 223-229). -/
def philosophy_prompts : List (String × String) :=
  [("christian", "Focus on love, forgiveness, patience, and treating others with dignity and respect."),
   ("buddhist", "Emphasize compassion, wisdom, truth, emancipation from earthly desires and delusion."),
   ("taoist", "Emphasize natural flow, balance, not forcing situations, and finding harmony."),
   ("secular_humanist", "Focus on reason, empathy, human dignity, and evidence-based problem solving."),
   ("stoic", "Emphasize acceptance of what you cannot control and focusing on your own actions and responses.")]

/-- philosophy_prompts[phil] as used on line 232 (every selected name is a
key of the dict, so the default is never hit on the real table). -/
def lookupStr (m : List (String × String)) (k : String) : String :=
  (lookupOpt m k).getD ""

/-- The joined guidance block built on lines 231-233 from a fresh
philosophy selection. -/
def selectedGuidance (rs : List ℚ) : String :=
  String.intercalate "\n"
    ((selectPhilosophies philosophy_weights 3 rs).map
      (fun phil => "- " ++ lookupStr philosophy_prompts phil))

/-- The prompt template interpolation of main.py lines 235-249. -/
def advicePrompt (situationText : String) (rs : List ℚ) : String :=
  "You are Babushka, a wise relationship advisor who draws from the collective wisdom of many cultures and generations. You speak with the warm, caring voice of a grandmother who has seen many relationships succeed and fail.\n\nYour advice should incorporate these philosophical perspectives:\n"
    ++ selectedGuidance rs
    ++ "\n\nSituation: " ++ situationText
    ++ "\n\nProvide warm, practical relationship advice that:\n1. Shows empathy and understanding\n2. Offers concrete, actionable steps\n3. Draws from traditional wisdom while being relevant to modern relationships\n4. Is encouraging but realistic\n5. Uses gentle, grandmother-like language\n\nKeep your response between 100-200 words. Address the person as \"dearest child\" or similar endearing terms."

/-- user_info.get("sub") guarded by the truthiness check of lines 186-188:
the authenticated user id, none when anonymous. -/
def subjectOf (user_info : Option Claims) : Option String :=
  match user_info with
  | some info => lookupOpt info "sub"
  | none => none

/-- Python bool() on an optional claims dict: false for None and for the
empty dict, as in bool(user_info) on main.py line 273 and the falsy test
of line 288. -/
def pyTruthyClaims (user_info : Option Claims) : Bool :=
  match user_info with
  | none => false
  | some info => info != []

/-- The POST /advice handler (main.py lines 177-280). State is passed
explicitly: the handler receives the current conversation log, the random
stream feeding random.choices, the two datetime.now() strings, and the
stream of outcomes the Anthropic client will produce for successive calls
(each outcome a function of the prompt sent). It returns the HTTP result
(Except value: error carries status code and detail), the new log, and the
unconsumed remainder of the outcome stream. The two appends run under the
Python truthiness guard if user_id (lines 194, 266), which is false both
for None and for an empty-string sub claim, and the authenticated field is
bool(user_info), false for None and for an empty claim set. The catch-all
except of lines 275-280 turns the raised exception into a 500 whose
detail embeds the exception text; an empty content list raises
IndexError, whose str is "list index out of range". -/
def get_relationship_advice (log : LogMap) (situation : RelationshipSituation)
    (user_info : Option Claims) (rs : List ℚ) (ts1 ts2 : String)
    (upstream : List (String → UpstreamResult)) :
    Except (Nat × String) AdviceResponse × LogMap ×
      List (String → UpstreamResult) :=
  let user_id := subjectOf user_info
  let log1 :=
    match user_id with
    | some uid =>
      if uid = "" then log
      else logAppend log uid ⟨ts1, "user_message", situation.situation⟩
    | none => log
  match upstream with
  | [] => (Except.error (500, "Error generating advice: no upstream response"), log1, [])
  | f :: rest =>
    match f (advicePrompt situation.situation rs) with
    | Except.error e =>
      (Except.error (500, "Error generating advice: " ++ e), log1, rest)
    | Except.ok [] =>
      (Except.error (500, "Error generating advice: list index out of range"), log1, rest)
    | Except.ok (t :: _) =>
      let log2 :=
        match user_id with
        | some uid =>
          if uid = "" then log1
          else logAppend log1 uid ⟨ts2, "bot_response", t⟩
        | none => log1
      (Except.ok ⟨t, user_id, pyTruthyClaims user_info⟩, log2, rest)

/-- The GET /conversations/{user_id} handler (main.py lines 282-297).
The guard on line 288 is the Python falsy test if not user_info, which
rejects with 401 both when no claim set is present and when the verified
claim set is the empty dict. -/
def get_user_conversations (log : LogMap) (user_id : String)
    (user_info : Option Claims) :
    Except (Nat × String) (String × List ConversationRecord) :=
  match user_info with
  | none => Except.error (401, "Authentication required")
  | some info =>
    if info = [] then Except.error (401, "Authentication required")
    else if lookupOpt info "sub" ≠ some user_id then
      Except.error (403, "Access denied")
    else Except.ok (user_id, logRead log user_id)

/-- The GET /health handler (main.py lines 128-130), its JSON object as an
ordered field list. -/
def health_check (instanceUrl : String) : List (String × String) :=
  [("status", "healthy"), ("clerk_config", instanceUrl)]

/-- Python bool() on an optional string: false for an unset variable and
for the empty string. -/
def pyTruthy (s : Option String) : Bool :=
  match s with
  | none => false
  | some v => v != ""

/-- Response of GET /debug/clerk. -/
structure DebugClerkResponse where
  clerk_instance_url : String
  clerk_secret_configured : Bool
  possible_jwks_urls : List String
deriving DecidableEq

/-- The GET /debug/clerk handler (main.py lines 132-143): no identity
input, never fails, URL list written out literally in the source. -/
def debug_clerk (instanceUrl : String) (clerkSecret : Option String) :
    DebugClerkResponse :=
  { clerk_instance_url := instanceUrl
    clerk_secret_configured := pyTruthy clerkSecret
    possible_jwks_urls :=
      ["https://" ++ instanceUrl ++ "/.well-known/jwks.json",
       "https://clerk." ++ instanceUrl ++ "/.well-known/jwks.json",
       "https://brave-fawn-12.clerk.accounts.dev/.well-known/jwks.json"] }

theorem logRead_logAppend_self (log : LogMap) (uid : String)
    (r : ConversationRecord) :
    logRead (logAppend log uid r) uid = logRead log uid ++ [r] := by
  induction log with
  | nil => simp [logAppend, logRead]
  | cons h rest ih =>
    obtain ⟨k, v⟩ := h
    by_cases hk : k = uid
    · simp [logAppend, logRead, hk]
    · simp [logAppend, logRead, hk, ih]

theorem logRead_of_not_mem (log : LogMap) (uid : String)
    (h : uid ∉ log.map Prod.fst) : logRead log uid = [] := by
  induction log with
  | nil => rfl
  | cons p rest ih =>
    obtain ⟨k, v⟩ := p
    simp only [List.map_cons, List.mem_cons] at h
    push_neg at h
    have hk : k ≠ uid := fun hkv => h.1 hkv.symm
    simp [logRead, hk, ih h.2]

theorem firstOk_none (urls : List String)
    (try_ : String → Except String Claims)
    (h : ∀ u, ∃ e, try_ u = Except.error e) : firstOk urls try_ = none := by
  induction urls with
  | nil => rfl
  | cons u rest ih =>
    obtain ⟨e, he⟩ := h u
    simp [firstOk, he, ih]

/-- C2: every listed failure mode of the identity verifier - missing
header, header not starting with Bearer, and every JWKS attempt raising
(which covers signature failure, expired token, malformed token and
missing or unreachable discovery configuration) - yields none (no
identity) rather than an error, and POST /advice run with that identity,
given a successful generation call, still succeeds and reports
authenticated = false with a null user id. -/
theorem C2_verify_failures_anonymous (authorization : Option String)
    (attempt : String → String → Except String Claims) (inst : String)
    (log : LogMap) (sit : RelationshipSituation) (rs : List ℚ)
    (ts1 ts2 : String) (f : String → UpstreamResult)
    (rest : List (String → UpstreamResult)) (t : String)
    (blocks : List String)
    (hfail : authorization = none ∨
      (∃ a, authorization = some a ∧ a.startsWith "Bearer " = false) ∨
      (∀ url tok, ∃ e, attempt url tok = Except.error e))
    (hgen : f (advicePrompt sit.situation rs) = Except.ok (t :: blocks)) :
    verify_clerk_token authorization attempt inst = none ∧
    (get_relationship_advice log sit
        (verify_clerk_token authorization attempt inst) rs ts1 ts2
        (f :: rest)).1 = Except.ok ⟨t, none, false⟩ := by
  have hnone : verify_clerk_token authorization attempt inst = none := by
    rcases hfail with h | ⟨a, ha, hb⟩ | h
    · simp [verify_clerk_token, h]
    · simp [verify_clerk_token, ha, hb]
    · cases authorization with
      | none => rfl
      | some a =>
        simp only [verify_clerk_token]
        by_cases hb : a.startsWith "Bearer "
        · simp only [hb, if_true]
          exact firstOk_none _ _ (fun u => h u (a.replace "Bearer " ""))
        · simp [hb]
  refine ⟨hnone, ?_⟩
  rw [hnone]
  simp [get_relationship_advice, subjectOf, pyTruthyClaims, hgen]

/-- Closed instance of C2: no authorization header, generation succeeds. -/
theorem C2_verify_failures_anonymous_witness :
    verify_clerk_token none (fun _ _ => Except.error "network unreachable")
      "clerk.askbabushka.ai" = none ∧
    (get_relationship_advice [] ⟨"We keep arguing about chores", none⟩
        (verify_clerk_token none (fun _ _ => Except.error "network unreachable")
          "clerk.askbabushka.ai") [] "t1" "t2"
        [fun _ => Except.ok ["Dearest child, be patient."]]).1 =
      Except.ok ⟨"Dearest child, be patient.", none, false⟩ :=
  C2_verify_failures_anonymous none (fun _ _ => Except.error "network unreachable")
    "clerk.askbabushka.ai" [] ⟨"We keep arguing about chores", none⟩ [] "t1" "t2"
    (fun _ => Except.ok ["Dearest child, be patient."]) []
    "Dearest child, be patient." [] (Or.inl rfl) rfl

/-- C3: an anonymous POST /advice request whose generation call succeeds
with a non-empty text returns success carrying that non-empty advice, a
null user id and authenticated = false, and leaves the conversation log
mapping exactly as it was. -/
theorem C3_anonymous_advice_frame (log : LogMap)
    (sit : RelationshipSituation) (rs : List ℚ) (ts1 ts2 : String)
    (f : String → UpstreamResult) (rest : List (String → UpstreamResult))
    (t : String) (blocks : List String)
    (hgen : f (advicePrompt sit.situation rs) = Except.ok (t :: blocks))
    (ht : t ≠ "") :
    ∃ resp : AdviceResponse,
      (get_relationship_advice log sit none rs ts1 ts2 (f :: rest)).1 =
        Except.ok resp ∧
      resp.advice ≠ "" ∧ resp.user_id = none ∧ resp.authenticated = false ∧
      (get_relationship_advice log sit none rs ts1 ts2 (f :: rest)).2.1 = log := by
  refine ⟨⟨t, none, false⟩, ?_, ht, rfl, rfl, ?_⟩ <;>
    simp [get_relationship_advice, subjectOf, pyTruthyClaims, hgen]

/-- Closed instance of C3 at a concrete request. -/
theorem C3_anonymous_advice_frame_witness :
    ∃ resp : AdviceResponse,
      (get_relationship_advice [("u1", [])]
          ⟨"We keep arguing about chores", none⟩ none [] "t1" "t2"
          [fun _ => Except.ok ["Dearest child, share the chores."]]).1 =
        Except.ok resp ∧
      resp.advice ≠ "" ∧ resp.user_id = none ∧ resp.authenticated = false ∧
      (get_relationship_advice [("u1", [])]
          ⟨"We keep arguing about chores", none⟩ none [] "t1" "t2"
          [fun _ => Except.ok ["Dearest child, share the chores."]]).2.1 =
        [("u1", [])] :=
  C3_anonymous_advice_frame [("u1", [])] ⟨"We keep arguing about chores", none⟩
    [] "t1" "t2" (fun _ => Except.ok ["Dearest child, share the chores."]) []
    "Dearest child, share the chores." [] rfl (by decide)

/-- C4: GET /conversations/{user_id} fails 401 whenever no identity is
present (no claim set at all, or the falsy empty claim set of the Python
not-test on line 288) and 403 whenever a present identity has a subject
differing from the path user id, in both cases for every log state (so
also when the user has records), and returns the full stored sequence on
a subject match. -/
theorem C4_conversations_auth_checks (log : LogMap) (user_id : String)
    (info : Claims) :
    get_user_conversations log user_id none =
      Except.error (401, "Authentication required") ∧
    get_user_conversations log user_id (some []) =
      Except.error (401, "Authentication required") ∧
    (info ≠ [] → lookupOpt info "sub" ≠ some user_id →
      get_user_conversations log user_id (some info) =
        Except.error (403, "Access denied")) ∧
    (info ≠ [] → lookupOpt info "sub" = some user_id →
      get_user_conversations log user_id (some info) =
        Except.ok (user_id, logRead log user_id)) := by
  refine ⟨rfl, rfl, ?_, ?_⟩ <;> intro hne h <;>
    simp [get_user_conversations, hne, h]

/-- Closed instance of C4: a log where u1 has a record, no token (401),
an empty verified claim set (401), a token for u2 (403), and a token for
u1 (success). -/
theorem C4_conversations_auth_checks_witness :
    get_user_conversations [("u1", [⟨"t0", "user_message", "hi"⟩])] "u1" none =
      Except.error (401, "Authentication required") ∧
    get_user_conversations [("u1", [⟨"t0", "user_message", "hi"⟩])] "u1"
        (some []) = Except.error (401, "Authentication required") ∧
    get_user_conversations [("u1", [⟨"t0", "user_message", "hi"⟩])] "u1"
        (some [("sub", "u2")]) = Except.error (403, "Access denied") ∧
    get_user_conversations [("u1", [⟨"t0", "user_message", "hi"⟩])] "u1"
        (some [("sub", "u1")]) =
      Except.ok ("u1", logRead [("u1", [⟨"t0", "user_message", "hi"⟩])] "u1") :=
  ⟨(C4_conversations_auth_checks [("u1", [⟨"t0", "user_message", "hi"⟩])] "u1"
      [("sub", "u2")]).1,
   (C4_conversations_auth_checks [("u1", [⟨"t0", "user_message", "hi"⟩])] "u1"
      [("sub", "u2")]).2.1,
   (C4_conversations_auth_checks [("u1", [⟨"t0", "user_message", "hi"⟩])] "u1"
      [("sub", "u2")]).2.2.1 (by decide) (by decide),
   (C4_conversations_auth_checks [("u1", [⟨"t0", "user_message", "hi"⟩])] "u1"
      [("sub", "u1")]).2.2.2 (by decide) (by decide)⟩

/-- C5: appending a record for a user and then reading that user gives
the previous sequence extended by exactly that record, so the last
element is the appended record and the length grew by exactly one; and
reading a user with no entry yields the empty sequence (the read is a
total function, so no error is possible). -/
theorem C5_log_append_read (log : LogMap) (uid : String)
    (r : ConversationRecord) :
    logRead (logAppend log uid r) uid = logRead log uid ++ [r] ∧
    (logRead (logAppend log uid r) uid).length =
      (logRead log uid).length + 1 ∧
    (logRead (logAppend log uid r) uid).getLast? = some r ∧
    (uid ∉ log.map Prod.fst → logRead log uid = []) := by
  have h1 := logRead_logAppend_self log uid r
  exact ⟨h1, by simp [h1], by simp [h1], logRead_of_not_mem log uid⟩

/-- Closed instance of C5 on a concrete log and record. -/
theorem C5_log_append_read_witness :
    logRead (logAppend [("other", [])] "u1" ⟨"t0", "user_message", "hi"⟩) "u1" =
      logRead [("other", [])] "u1" ++ [⟨"t0", "user_message", "hi"⟩] ∧
    (logRead (logAppend [("other", [])] "u1" ⟨"t0", "user_message", "hi"⟩) "u1").length =
      (logRead [("other", [])] "u1").length + 1 ∧
    (logRead (logAppend [("other", [])] "u1" ⟨"t0", "user_message", "hi"⟩) "u1").getLast? =
      some ⟨"t0", "user_message", "hi"⟩ ∧
    ("u1" ∉ ([("other", [])] : LogMap).map Prod.fst →
      logRead [("other", [])] "u1" = []) :=
  C5_log_append_read [("other", [])] "u1" ⟨"t0", "user_message", "hi"⟩

/-- C6: when the generation call raises, POST /advice consumes exactly
one outcome from the upstream stream (no retry) and fails with a 500
whose detail is the fixed prefix followed by the raw upstream error text;
when the call returns an empty content list, it likewise consumes one
outcome and fails with the 500 produced by the IndexError. -/
theorem C6_upstream_failure_single_attempt (log : LogMap)
    (sit : RelationshipSituation) (user_info : Option Claims) (rs : List ℚ)
    (ts1 ts2 : String) (f : String → UpstreamResult)
    (rest : List (String → UpstreamResult)) :
    (∀ e, f (advicePrompt sit.situation rs) = Except.error e →
      (get_relationship_advice log sit user_info rs ts1 ts2 (f :: rest)).1 =
        Except.error (500, "Error generating advice: " ++ e) ∧
      (get_relationship_advice log sit user_info rs ts1 ts2 (f :: rest)).2.2 =
        rest) ∧
    (f (advicePrompt sit.situation rs) = Except.ok [] →
      (get_relationship_advice log sit user_info rs ts1 ts2 (f :: rest)).1 =
        Except.error (500, "Error generating advice: list index out of range") ∧
      (get_relationship_advice log sit user_info rs ts1 ts2 (f :: rest)).2.2 =
        rest) := by
  constructor
  · intro e he
    constructor <;> simp [get_relationship_advice, he]
  · intro he
    constructor <;> simp [get_relationship_advice, he]

/-- Closed instance of C6: a raising call, with a second outcome queued
behind it that stays unconsumed. -/
theorem C6_upstream_failure_single_attempt_witness :
    (get_relationship_advice [] ⟨"s", none⟩ none [] "t1" "t2"
        [fun _ => Except.error "boom", fun _ => Except.ok ["later"]]).1 =
      Except.error (500, "Error generating advice: " ++ "boom") ∧
    (get_relationship_advice [] ⟨"s", none⟩ none [] "t1" "t2"
        [fun _ => Except.error "boom", fun _ => Except.ok ["later"]]).2.2 =
      [fun _ => Except.ok ["later"]] :=
  (C6_upstream_failure_single_attempt [] ⟨"s", none⟩ none [] "t1" "t2"
    (fun _ => Except.error "boom") [fun _ => Except.ok ["later"]]).1 "boom" rfl

/-- C7: an authenticated POST /advice (a verified claim set whose sub
claim is a truthy, non-empty user id, so the guard of line 194 fired and
the user_message was appended) whose generation call raises still fails
with the 500, yet the already-performed append remains in the log: the
resulting log is exactly the input log with that record appended for the
subject, so the subject sequence ends in a user_message with no matching
bot_response. -/
theorem C7_no_rollback_on_failure (log : LogMap)
    (sit : RelationshipSituation) (info : Claims) (uid : String)
    (rs : List ℚ) (ts1 ts2 : String) (f : String → UpstreamResult)
    (rest : List (String → UpstreamResult)) (e : String)
    (hsub : lookupOpt info "sub" = some uid) (huid : uid ≠ "")
    (hup : f (advicePrompt sit.situation rs) = Except.error e) :
    (get_relationship_advice log sit (some info) rs ts1 ts2 (f :: rest)).1 =
      Except.error (500, "Error generating advice: " ++ e) ∧
    (get_relationship_advice log sit (some info) rs ts1 ts2 (f :: rest)).2.1 =
      logAppend log uid ⟨ts1, "user_message", sit.situation⟩ ∧
    logRead
        (get_relationship_advice log sit (some info) rs ts1 ts2 (f :: rest)).2.1
        uid =
      logRead log uid ++ [⟨ts1, "user_message", sit.situation⟩] := by
  have hlog :
      (get_relationship_advice log sit (some info) rs ts1 ts2 (f :: rest)).2.1 =
        logAppend log uid ⟨ts1, "user_message", sit.situation⟩ := by
    simp [get_relationship_advice, subjectOf, hsub, huid, hup]
  refine ⟨?_, hlog, ?_⟩
  · simp [get_relationship_advice, subjectOf, hsub, huid, hup]
  · rw [hlog, logRead_logAppend_self]

/-- Closed instance of C7: user u1 authenticated, generation raises. -/
theorem C7_no_rollback_on_failure_witness :
    (get_relationship_advice [] ⟨"s", none⟩ (some [("sub", "u1")]) [] "t1" "t2"
        [fun _ => Except.error "boom"]).1 =
      Except.error (500, "Error generating advice: " ++ "boom") ∧
    (get_relationship_advice [] ⟨"s", none⟩ (some [("sub", "u1")]) [] "t1" "t2"
        [fun _ => Except.error "boom"]).2.1 =
      logAppend [] "u1" ⟨"t1", "user_message", "s"⟩ ∧
    logRead
        (get_relationship_advice [] ⟨"s", none⟩ (some [("sub", "u1")]) [] "t1"
          "t2" [fun _ => Except.error "boom"]).2.1 "u1" =
      logRead [] "u1" ++ [⟨"t1", "user_message", "s"⟩] :=
  C7_no_rollback_on_failure [] ⟨"s", none⟩ [("sub", "u1")] "u1" [] "t1" "t2"
    (fun _ => Except.error "boom") [] "boom" rfl (by decide) rfl

/-- C8: the optional user_id field of the POST /advice body has no effect
at all: two requests identical except for that field produce identical
results (response, log, remaining upstream stream), and whenever the
handler succeeds the user_id it returns is exactly the subject claim of
the verified token, which is none when no identity is present. -/
theorem C8_body_user_id_ignored (log : LogMap) (sitText : String)
    (b1 b2 : Option String) (user_info : Option Claims) (rs : List ℚ)
    (ts1 ts2 : String) (upstream : List (String → UpstreamResult)) :
    get_relationship_advice log ⟨sitText, b1⟩ user_info rs ts1 ts2 upstream =
      get_relationship_advice log ⟨sitText, b2⟩ user_info rs ts1 ts2 upstream ∧
    (∀ resp : AdviceResponse,
      (get_relationship_advice log ⟨sitText, b1⟩ user_info rs ts1 ts2
          upstream).1 = Except.ok resp →
      resp.user_id = subjectOf user_info) ∧
    subjectOf none = none := by
  refine ⟨rfl, ?_, rfl⟩
  intro resp h
  cases upstream with
  | nil => simp [get_relationship_advice] at h
  | cons f rest =>
    cases hf : f (advicePrompt sitText rs) with
    | error e => simp [get_relationship_advice, hf] at h
    | ok blocks =>
      cases blocks with
      | nil => simp [get_relationship_advice, hf] at h
      | cons t more =>
        simp [get_relationship_advice, hf] at h
        rw [← h]

/-- Closed instance of C8: same authenticated request with two different
body user_id values. -/
theorem C8_body_user_id_ignored_witness :
    get_relationship_advice [] ⟨"s", some "spoofed"⟩ (some [("sub", "u1")]) []
        "t1" "t2" [fun _ => Except.ok ["ok"]] =
      get_relationship_advice [] ⟨"s", none⟩ (some [("sub", "u1")]) [] "t1"
        "t2" [fun _ => Except.ok ["ok"]] ∧
    (∀ resp : AdviceResponse,
      (get_relationship_advice [] ⟨"s", some "spoofed"⟩ (some [("sub", "u1")])
          [] "t1" "t2" [fun _ => Except.ok ["ok"]]).1 = Except.ok resp →
      resp.user_id = subjectOf (some [("sub", "u1")])) ∧
    subjectOf none = none :=
  C8_body_user_id_ignored [] "s" (some "spoofed") none (some [("sub", "u1")])
    [] "t1" "t2" [fun _ => Except.ok ["ok"]]

/-- C9 counterexample: the /health response is not the one-field object
the claim states, because the handler also returns the clerk_config
field (main.py line 130). -/
theorem C9_health_extra_field :
    health_check (clerk_instance_url none none) ≠ [("status", "healthy")] := by
  decide

/-- C9 amended: the /health response is the constant two-field object
with status healthy and clerk_config equal to the configured Clerk
instance URL - the same value on every call for a fixed configuration. -/
theorem C9_health_amended (instanceUrl : String) :
    health_check instanceUrl =
      [("status", "healthy"), ("clerk_config", instanceUrl)] ∧
    lookupOpt (health_check instanceUrl) "status" = some "healthy" := by
  exact ⟨rfl, rfl⟩

/-- C10: the GET /debug/clerk handler takes no identity input (so no
authentication is required), never fails, and returns the configured
instance URL, whether the Clerk secret is set to a non-empty value, and
exactly the candidate JWKS discovery URL list the identity verifier
tries. -/
theorem C10_debug_clerk_spec (instanceUrl : String)
    (clerkSecret : Option String) :
    (debug_clerk instanceUrl clerkSecret).clerk_instance_url = instanceUrl ∧
    (debug_clerk instanceUrl clerkSecret).clerk_secret_configured =
      pyTruthy clerkSecret ∧
    (debug_clerk instanceUrl clerkSecret).possible_jwks_urls =
      jwks_urls instanceUrl := by
  exact ⟨rfl, rfl, rfl⟩
